import Mathlib

/-!
Shallow embedding of `src/core/battle/check.rs`, the command precondition
validator of the zemeroth turn-based hex battle core.

The validator itself (`check` and every `check_*` helper below) is translated
function-by-function from the Rust source.  The battle `State`, its component
("parts") tables, the hex map and the movement path are external collaborators
that the source only consumes; they are modelled from the spec's interface
description (§3/§6): component tables become association lists keyed by actor
id, the board-membership predicate is an abstract boolean field of the state,
and the hex distance is the standard axial hex metric.

A Rust total lookup (`parts.xxx.get(id)`, which panics when the entry is
absent) is modelled as an `Option` dereference that produces the distinguished
outcome `Fail.crash`; a fallible lookup (`get_opt`) stays an `Option`.  Thus
`check` returns `Except Fail Unit`: `Except.ok ()` for `Ok(())`,
`Except.error (Fail.err e)` for `Err(e)`, and `Except.error Fail.crash` for a
panic.
-/

namespace Zemeroth

/-- Axial hex coordinate (`map::PosHex`). -/
structure PosHex where
  q : Int
  r : Int
deriving DecidableEq

/-- Modelled from the spec: `map::distance_hex`, the hex-metric distance
between two axial hex coordinates (glossary: "the metric distance between two
axial hex coordinates under the hex-grid adjacency model"); this is the
standard axial hex distance. -/
def distance_hex (a b : PosHex) : Nat :=
  ((a.q - b.q).natAbs + (a.r - b.r).natAbs + (a.q + a.r - (b.q + b.r)).natAbs) / 2

/-- Blocker weight classification (`battle::Weight`). -/
inductive Weight where
  | Normal
  | Heavy
  | Immovable
deriving DecidableEq

/-- Numeric rank of a weight, used to compare weights. -/
def weight_val : Weight → Nat
  | .Normal => 0
  | .Heavy => 1
  | .Immovable => 2

/-- Modelled from the spec: `PushStrength::can_push` ("a classification
determining which blocker weights can be displaced by a knockback-style
effect"): a push of strength `s` displaces weights up to `s`. -/
def can_push (s w : Weight) : Bool :=
  weight_val w ≤ weight_val s

/-- The closed ability enumeration (`ability::Ability`). -/
inductive Ability where
  | Knockback
  | Club
  | Jump
  | LongJump
  | Poison
  | Bomb
  | BombPush
  | BombFire
  | BombPoison
  | BombDemonic
  | Summon
  | Vanish
  | Dash
  | Rage
  | Heal
  | GreatHeal
  | Bloodlust
  | ExplodePush
  | ExplodeDamage
  | ExplodeFire
  | ExplodePoison
deriving DecidableEq

/-- Ability readiness status (`ability::Status`). -/
inductive Status where
  | Ready
  | Cooldown (n : Nat)
deriving DecidableEq

/-- An ability kind paired with its readiness status
(`ability::RechargeableAbility`). -/
structure RechargeableAbility where
  ability : Ability
  status : Status
deriving DecidableEq

/-- Combat-capable actor stats (`component::Agent`), restricted to the fields
the validator reads. -/
structure Agent where
  moves : Nat
  attacks : Nat
  jokers : Nat
  attack_distance : Nat
  move_points : Nat
deriving DecidableEq

/-- Blocker component (`component::Blocker`), restricted to its weight. -/
structure Blocker where
  weight : Weight
deriving DecidableEq

/-- Strength component (`component::Strength`): current and base health-like
values. -/
structure Strength where
  strength : Nat
  base_strength : Nat
deriving DecidableEq

/-- The per-actor component tables (`state.parts()`), modelled from the spec as
association lists keyed by actor id. -/
structure Parts where
  pos : List (Nat × PosHex)
  belongs_to : List (Nat × Nat)
  agent : List (Nat × Agent)
  abilities : List (Nat × List RechargeableAbility)
  blocker : List (Nat × Blocker)
  strength : List (Nat × Strength)

/-- The battle-state snapshot, modelled from the spec's interface (§6):
current player id, terminal battle result accessor, board membership
predicate, and the component tables. -/
structure State where
  parts : Parts
  player_id : Nat
  battle_result : Option Unit
  is_inboard : PosHex → Bool

/-- Fallible component lookup (`table.get_opt(id)`). -/
def get_opt {α : Type} : List (Nat × α) → Nat → Option α
  | [], _ => none
  | e :: rest, id => if e.1 = id then some e.2 else get_opt rest id

/-- The outcome of a validator call: an `Error` from the source's error
enumeration, or a panic of a total component lookup (`crash`). -/
inductive Error where
  | NotEnoughMovePoints
  | NotEnoughStrength
  | BadActorId
  | BadTargetId
  | BadTargetType
  | TileIsBlocked
  | DistanceIsTooBig
  | DistanceIsTooSmall
  | CanNotCommandEnemyAgents
  | NotEnoughMoves
  | NotEnoughAttacks
  | AbilityIsNotReady
  | NoSuchAbility
  | NoTarget
  | BadPos
  | BadActorType
  | BattleEnded
deriving DecidableEq

/-- A failed validator call: a reported `Error`, or a panic (`crash`) from a
total component lookup on a missing entry. -/
inductive Fail where
  | err (e : Error)
  | crash
deriving DecidableEq

/-- A Rust total lookup `table.get(id)`: panics (`crash`) when absent. -/
def total_get {α : Type} (o : Option α) : Except Fail α :=
  match o with
  | some a => Except.ok a
  | none => Except.error Fail.crash

/-- Scan a component table for the first actor positioned at `p`. -/
def id_at_table {α : Type} : List (Nat × α) → List (Nat × PosHex) → PosHex → Option Nat
  | [], _, _ => none
  | e :: rest, post, p =>
    if get_opt post e.1 = some p then some e.1 else id_at_table rest post p

/-- Modelled from the spec: `state::agent_id_at_opt`, the "agent-at" lookup by
position — the first actor carrying an agent component whose position is `p`. -/
def agent_id_at_opt (s : State) (p : PosHex) : Option Nat :=
  id_at_table s.parts.agent s.parts.pos p

/-- Modelled from the spec: `state::blocker_id_at_opt`, the "blocker-at"
lookup by position. -/
def blocker_id_at_opt (s : State) (p : PosHex) : Option Nat :=
  id_at_table s.parts.blocker s.parts.pos p

/-- Modelled from the spec: `state::is_tile_blocked`, the occupancy predicate
("tile blocked by any blocker"). -/
def is_tile_blocked (s : State) (p : PosHex) : Bool :=
  (blocker_id_at_opt s p).isSome

/-- A movement path (`battle::movement::Path`): the validator only reads the
step destinations (`path.steps()[i].to`) and the movement cost
(`path.cost_for(state, id)`, an external cost function modelled from the spec
as the path's associated cost value). -/
structure Path where
  steps : List PosHex
  cost : Nat

/-- `command::Create`, restricted to the field the validator reads. -/
structure Create where
  pos : PosHex

/-- `command::MoveTo`. -/
structure MoveTo where
  id : Nat
  path : Path

/-- `command::Attack`. -/
structure Attack where
  attacker_id : Nat
  target_id : Nat

/-- `command::UseAbility`. -/
structure UseAbility where
  id : Nat
  pos : PosHex
  ability : Ability

/-- The command sum type (`command::Command`). -/
inductive Command where
  | Create (c : Create)
  | MoveTo (c : MoveTo)
  | Attack (c : Attack)
  | EndTurn
  | UseAbility (c : UseAbility)

/-- `try_get_actor`: the actor must carry an agent component. -/
def try_get_actor (s : State) (id : Nat) : Except Fail Agent :=
  match get_opt s.parts.agent id with
  | some agent => Except.ok agent
  | none => Except.error (Fail.err Error.BadActorId)

/-- The inner scan loop of `check_agent_ability_ready`, carrying the `found`
flag. -/
def ability_ready_scan (expected : Ability) : List RechargeableAbility → Bool → Except Fail Unit
  | [], found =>
    if found then Except.ok () else Except.error (Fail.err Error.NoSuchAbility)
  | a :: rest, found =>
    if a.ability = expected then
      if a.status ≠ Status.Ready then Except.error (Fail.err Error.AbilityIsNotReady)
      else ability_ready_scan expected rest true
    else ability_ready_scan expected rest found

/-- `check_agent_ability_ready`. -/
def check_agent_ability_ready (s : State) (id : Nat) (expected : Ability) : Except Fail Unit :=
  match get_opt s.parts.abilities id with
  | none => Except.error (Fail.err Error.BadActorType)
  | some abilities => ability_ready_scan expected abilities false

/-- `check_agent_belongs_to_correct_player` (total `belongs_to` lookup). -/
def check_agent_belongs_to_correct_player (s : State) (id : Nat) : Except Fail Unit :=
  match total_get (get_opt s.parts.belongs_to id) with
  | Except.error e => Except.error e
  | Except.ok agent_player_id =>
    if agent_player_id ≠ s.player_id then Except.error (Fail.err Error.CanNotCommandEnemyAgents)
    else Except.ok ()

/-- `check_agent_can_attack`. -/
def check_agent_can_attack (s : State) (id : Nat) : Except Fail Unit :=
  match try_get_actor s id with
  | Except.error e => Except.error e
  | Except.ok agent =>
    if agent.attacks = 0 ∧ agent.jokers = 0 then Except.error (Fail.err Error.NotEnoughAttacks)
    else Except.ok ()

/-- `check_agent_can_move`. -/
def check_agent_can_move (s : State) (id : Nat) : Except Fail Unit :=
  match try_get_actor s id with
  | Except.error e => Except.error e
  | Except.ok agent =>
    if agent.moves = 0 ∧ agent.jokers = 0 then Except.error (Fail.err Error.NotEnoughMoves)
    else Except.ok ()

/-- `check_min_distance`. -/
def check_min_distance (src dst : PosHex) (min : Nat) : Except Fail Unit :=
  if distance_hex src dst < min then Except.error (Fail.err Error.DistanceIsTooSmall)
  else Except.ok ()

/-- `check_max_distance`. -/
def check_max_distance (src dst : PosHex) (max : Nat) : Except Fail Unit :=
  if distance_hex src dst > max then Except.error (Fail.err Error.DistanceIsTooBig)
  else Except.ok ()

/-- `check_is_inboard`. -/
def check_is_inboard (s : State) (p : PosHex) : Except Fail Unit :=
  if ¬ s.is_inboard p then Except.error (Fail.err Error.BadPos)
  else Except.ok ()

/-- `check_not_blocked_and_is_inboard`. -/
def check_not_blocked_and_is_inboard (s : State) (p : PosHex) : Except Fail Unit :=
  match check_is_inboard s p with
  | Except.error e => Except.error e
  | Except.ok _ =>
    if is_tile_blocked s p then Except.error (Fail.err Error.TileIsBlocked)
    else Except.ok ()

/-- `check_object_pos` (total `pos` lookup). -/
def check_object_pos (s : State) (id : Nat) (expected_pos : PosHex) : Except Fail Unit :=
  match total_get (get_opt s.parts.pos id) with
  | Except.error e => Except.error e
  | Except.ok real_pos =>
    if real_pos ≠ expected_pos then Except.error (Fail.err Error.BadPos)
    else Except.ok ()

/-- The per-step loop of `check_command_move_to`: every step destination is
checked independently by `check_not_blocked_and_is_inboard`. -/
def check_steps (s : State) : List PosHex → Except Fail Unit
  | [] => Except.ok ()
  | p :: rest =>
    match check_not_blocked_and_is_inboard s p with
    | Except.error e => Except.error e
    | Except.ok _ => check_steps s rest

/-- `check_command_move_to` (note: the `belongs_to` lookup on line 52 of the
source is total and panics when absent). -/
def check_command_move_to (s : State) (c : MoveTo) : Except Fail Unit :=
  match try_get_actor s c.id with
  | Except.error e => Except.error e
  | Except.ok agent =>
  match total_get (get_opt s.parts.belongs_to c.id) with
  | Except.error e => Except.error e
  | Except.ok agent_player_id =>
  if agent_player_id ≠ s.player_id then Except.error (Fail.err Error.CanNotCommandEnemyAgents)
  else
  match check_agent_can_move s c.id with
  | Except.error e => Except.error e
  | Except.ok _ =>
  match check_steps s c.path.steps with
  | Except.error e => Except.error e
  | Except.ok _ =>
  if c.path.cost > agent.move_points then Except.error (Fail.err Error.NotEnoughMovePoints)
  else Except.ok ()

/-- `check_command_create`. -/
def check_command_create (s : State) (c : Create) : Except Fail Unit :=
  check_not_blocked_and_is_inboard s c.pos

/-- `check_command_attack` (the attacker `pos` and `belongs_to` lookups on
lines 82–83 of the source are total and panic when absent). -/
def check_command_attack (s : State) (c : Attack) : Except Fail Unit :=
  if c.attacker_id = c.target_id then Except.error (Fail.err Error.BadTargetId)
  else
  match get_opt s.parts.pos c.target_id with
  | none => Except.error (Fail.err Error.BadTargetId)
  | some target_pos =>
  match try_get_actor s c.attacker_id with
  | Except.error e => Except.error e
  | Except.ok attacker_agent =>
  match total_get (get_opt s.parts.pos c.attacker_id) with
  | Except.error e => Except.error e
  | Except.ok attacker_pos =>
  match total_get (get_opt s.parts.belongs_to c.attacker_id) with
  | Except.error e => Except.error e
  | Except.ok attacker_player_id =>
  if attacker_player_id ≠ s.player_id then Except.error (Fail.err Error.CanNotCommandEnemyAgents)
  else
  if (get_opt s.parts.agent c.target_id).isNone then Except.error (Fail.err Error.BadTargetId)
  else
  match check_is_inboard s target_pos with
  | Except.error e => Except.error e
  | Except.ok _ =>
  match check_agent_can_attack s c.attacker_id with
  | Except.error e => Except.error e
  | Except.ok _ =>
  check_max_distance attacker_pos target_pos attacker_agent.attack_distance

/-- `check_command_end_turn`: always succeeds. -/
def check_command_end_turn (_s : State) : Except Fail Unit :=
  Except.ok ()

/-- `check_ability_knockback` (total `pos` and `blocker` lookups). -/
def check_ability_knockback (s : State) (id : Nat) (pos : PosHex) : Except Fail Unit :=
  match total_get (get_opt s.parts.pos id) with
  | Except.error e => Except.error e
  | Except.ok selected_pos =>
  match check_min_distance selected_pos pos 1 with
  | Except.error e => Except.error e
  | Except.ok _ =>
  match check_max_distance selected_pos pos 1 with
  | Except.error e => Except.error e
  | Except.ok _ =>
  match agent_id_at_opt s pos with
  | none => Except.error (Fail.err Error.NoTarget)
  | some target_id =>
  match total_get (get_opt s.parts.blocker target_id) with
  | Except.error e => Except.error e
  | Except.ok blocker =>
  if ¬ can_push Weight.Normal blocker.weight then Except.error (Fail.err Error.NotEnoughStrength)
  else Except.ok ()

/-- `check_ability_jump` (used for Jump with max distance 2 and LongJump with
max distance 3; the min distance is 2 for both). -/
def check_ability_jump (s : State) (id : Nat) (pos : PosHex) (max_distance : Nat) :
    Except Fail Unit :=
  match total_get (get_opt s.parts.pos id) with
  | Except.error e => Except.error e
  | Except.ok agent_pos =>
  match check_min_distance agent_pos pos 2 with
  | Except.error e => Except.error e
  | Except.ok _ =>
  match check_max_distance agent_pos pos max_distance with
  | Except.error e => Except.error e
  | Except.ok _ =>
  check_not_blocked_and_is_inboard s pos

/-- `check_ability_club`. -/
def check_ability_club (s : State) (id : Nat) (pos : PosHex) : Except Fail Unit :=
  match total_get (get_opt s.parts.pos id) with
  | Except.error e => Except.error e
  | Except.ok selected_pos =>
  match check_min_distance selected_pos pos 1 with
  | Except.error e => Except.error e
  | Except.ok _ =>
  match check_max_distance selected_pos pos 1 with
  | Except.error e => Except.error e
  | Except.ok _ =>
  if (agent_id_at_opt s pos).isNone then Except.error (Fail.err Error.NoTarget)
  else Except.ok ()

/-- `check_ability_poison`. -/
def check_ability_poison (s : State) (id : Nat) (pos : PosHex) : Except Fail Unit :=
  match total_get (get_opt s.parts.pos id) with
  | Except.error e => Except.error e
  | Except.ok selected_pos =>
  match check_min_distance selected_pos pos 1 with
  | Except.error e => Except.error e
  | Except.ok _ =>
  match check_max_distance selected_pos pos 3 with
  | Except.error e => Except.error e
  | Except.ok _ =>
  if (blocker_id_at_opt s pos).isNone then Except.error (Fail.err Error.NoTarget)
  else Except.ok ()

/-- `check_ability_explode`. -/
def check_ability_explode (s : State) (id : Nat) (pos : PosHex) : Except Fail Unit :=
  check_object_pos s id pos

/-- `BOMB_THROW_DISTANCE_MAX`. -/
def BOMB_THROW_DISTANCE_MAX : Nat := 3

/-- `check_ability_bomb_throw`. -/
def check_ability_bomb_throw (s : State) (id : Nat) (pos : PosHex) : Except Fail Unit :=
  match total_get (get_opt s.parts.pos id) with
  | Except.error e => Except.error e
  | Except.ok agent_pos =>
  match check_max_distance agent_pos pos BOMB_THROW_DISTANCE_MAX with
  | Except.error e => Except.error e
  | Except.ok _ =>
  check_not_blocked_and_is_inboard s pos

/-- `check_ability_summon`. -/
def check_ability_summon (s : State) (id : Nat) (pos : PosHex) : Except Fail Unit :=
  check_object_pos s id pos

/-- `check_ability_vanish`: the actor must not carry an agent component, must
have a position, and the target position must equal it. -/
def check_ability_vanish (s : State) (id : Nat) (pos : PosHex) : Except Fail Unit :=
  if (get_opt s.parts.agent id).isSome then Except.error (Fail.err Error.BadActorType)
  else
  match get_opt s.parts.pos id with
  | none => Except.error (Fail.err Error.BadActorType)
  | some actor_pos =>
  if pos ≠ actor_pos then Except.error (Fail.err Error.BadPos)
  else Except.ok ()

/-- `check_ability_dash`. -/
def check_ability_dash (s : State) (id : Nat) (pos : PosHex) : Except Fail Unit :=
  match total_get (get_opt s.parts.pos id) with
  | Except.error e => Except.error e
  | Except.ok agent_pos =>
  match check_max_distance agent_pos pos 1 with
  | Except.error e => Except.error e
  | Except.ok _ =>
  check_not_blocked_and_is_inboard s pos

/-- `check_ability_rage`. -/
def check_ability_rage (s : State) (id : Nat) (pos : PosHex) : Except Fail Unit :=
  check_object_pos s id pos

/-- `check_ability_heal` (shared by Heal and GreatHeal). -/
def check_ability_heal (s : State) (id : Nat) (pos : PosHex) : Except Fail Unit :=
  match total_get (get_opt s.parts.pos id) with
  | Except.error e => Except.error e
  | Except.ok agent_pos =>
  match check_max_distance agent_pos pos 1 with
  | Except.error e => Except.error e
  | Except.ok _ =>
  match agent_id_at_opt s pos with
  | none => Except.error (Fail.err Error.NoTarget)
  | some target_id =>
  match get_opt s.parts.strength target_id with
  | some strength =>
    if strength.strength = strength.base_strength then Except.error (Fail.err Error.BadTargetType)
    else Except.ok ()
  | none => Except.error (Fail.err Error.BadActorId)

/-- `check_ability_bloodlust`. -/
def check_ability_bloodlust (s : State) (_id : Nat) (pos : PosHex) : Except Fail Unit :=
  if (agent_id_at_opt s pos).isNone then Except.error (Fail.err Error.NoTarget)
  else Except.ok ()

/-- `check_command_use_ability`: the shared preamble (ownership, attack
resource, ability readiness) followed by the ability-specific dispatch. -/
def check_command_use_ability (s : State) (c : UseAbility) : Except Fail Unit :=
  match check_agent_belongs_to_correct_player s c.id with
  | Except.error e => Except.error e
  | Except.ok _ =>
  match check_agent_can_attack s c.id with
  | Except.error e => Except.error e
  | Except.ok _ =>
  match check_agent_ability_ready s c.id c.ability with
  | Except.error e => Except.error e
  | Except.ok _ =>
  match c.ability with
  | Ability.Knockback => check_ability_knockback s c.id c.pos
  | Ability.Club => check_ability_club s c.id c.pos
  | Ability.Jump => check_ability_jump s c.id c.pos 2
  | Ability.LongJump => check_ability_jump s c.id c.pos 3
  | Ability.Poison => check_ability_poison s c.id c.pos
  | Ability.Bomb => check_ability_bomb_throw s c.id c.pos
  | Ability.BombPush => check_ability_bomb_throw s c.id c.pos
  | Ability.BombFire => check_ability_bomb_throw s c.id c.pos
  | Ability.BombPoison => check_ability_bomb_throw s c.id c.pos
  | Ability.BombDemonic => check_ability_bomb_throw s c.id c.pos
  | Ability.Summon => check_ability_summon s c.id c.pos
  | Ability.Vanish => check_ability_vanish s c.id c.pos
  | Ability.Dash => check_ability_dash s c.id c.pos
  | Ability.Rage => check_ability_rage s c.id c.pos
  | Ability.Heal => check_ability_heal s c.id c.pos
  | Ability.GreatHeal => check_ability_heal s c.id c.pos
  | Ability.Bloodlust => check_ability_bloodlust s c.id c.pos
  | Ability.ExplodePush => check_ability_explode s c.id c.pos
  | Ability.ExplodeDamage => check_ability_explode s c.id c.pos
  | Ability.ExplodeFire => check_ability_explode s c.id c.pos
  | Ability.ExplodePoison => check_ability_explode s c.id c.pos

/-- `check`: the dispatcher — the battle-ended short circuit followed by the
per-command checkers. -/
def check (s : State) (c : Command) : Except Fail Unit :=
  if s.battle_result.isSome then Except.error (Fail.err Error.BattleEnded)
  else
  match c with
  | Command.Create c => check_command_create s c
  | Command.MoveTo c => check_command_move_to s c
  | Command.Attack c => check_command_attack s c
  | Command.EndTurn => check_command_end_turn s
  | Command.UseAbility c => check_command_use_ability s c

/-! ### Concrete states used as witnesses -/

/-- Shorthand constructor for hex positions in concrete test states. -/
def hx (q r : Int) : PosHex := ⟨q, r⟩

/-- A board-membership predicate for concrete test states: the square of
radius 10 around the origin. -/
def inboard10 (p : PosHex) : Bool :=
  decide (p.q.natAbs ≤ 10) && decide (p.r.natAbs ≤ 10)

/-- A standard agent for concrete test states. -/
def agentStd : Agent :=
  { moves := 1, attacks := 1, jokers := 0, attack_distance := 1, move_points := 3 }

/-- A state with everything empty and the battle still running. -/
def sEmpty : State :=
  { parts := { pos := [], belongs_to := [], agent := [], abilities := [],
               blocker := [], strength := [] },
    player_id := 0, battle_result := none, is_inboard := inboard10 }

/-- A state whose battle has concluded. -/
def sEnded : State :=
  { sEmpty with battle_result := some () }

/-- A state where actor 1 is an agent owned by player 1 while the current
player is 0, and actor 2 is an agent of the current player. -/
def sEnemy : State :=
  { parts := { pos := [(1, hx 0 0), (2, hx 1 0)],
               belongs_to := [(1, 1), (2, 0)],
               agent := [(1, agentStd), (2, agentStd)],
               abilities := [], blocker := [], strength := [] },
    player_id := 0, battle_result := none, is_inboard := inboard10 }

/-- A state where actor 1 holds a Ready Jump, a cooling-down Jump and a Ready
Heal. -/
def sAbil : State :=
  { sEmpty with parts := { sEmpty.parts with
      abilities := [(1, [⟨Ability.Jump, Status.Ready⟩,
                         ⟨Ability.Jump, Status.Cooldown 1⟩,
                         ⟨Ability.Heal, Status.Ready⟩])] } }

/-- A state with a healer at the origin and three adjacent agents: one at
full strength, one below base strength, one with no strength component. -/
def sHeal : State :=
  { parts := { pos := [(1, hx 0 0), (2, hx 1 0), (3, hx 0 1), (4, hx (-1) 0)],
               belongs_to := [],
               agent := [(2, agentStd), (3, agentStd), (4, agentStd)],
               abilities := [], blocker := [],
               strength := [(2, ⟨5, 5⟩), (3, ⟨3, 5⟩)] },
    player_id := 0, battle_result := none, is_inboard := inboard10 }

/-- A state where actor 7 is a non-agent of the current player whose Vanish
ability is Ready and which sits at position (2,2). -/
def sVanish : State :=
  { parts := { pos := [(7, hx 2 2)],
               belongs_to := [(7, 0)],
               agent := [],
               abilities := [(7, [⟨Ability.Vanish, Status.Ready⟩])],
               blocker := [], strength := [] },
    player_id := 0, battle_result := none, is_inboard := inboard10 }

/-- A Vanish use by actor 7 targeting its own position. -/
def cVanish : UseAbility := { id := 7, pos := hx 2 2, ability := Ability.Vanish }

/-- A state where agent 1 of the current player has zero moves and zero move
points but one joker. -/
def sJoker : State :=
  { parts := { pos := [(1, hx 0 0)],
               belongs_to := [(1, 0)],
               agent := [(1, { moves := 0, attacks := 1, jokers := 1,
                               attack_distance := 1, move_points := 0 })],
               abilities := [], blocker := [], strength := [] },
    player_id := 0, battle_result := none, is_inboard := inboard10 }

/-- A state where agent 1 of the current player (3 move points) sits at the
origin and a blocker occupies tile (5,5). -/
def sBlock : State :=
  { parts := { pos := [(1, hx 0 0), (9, hx 5 5)],
               belongs_to := [(1, 0)],
               agent := [(1, agentStd)],
               abilities := [], blocker := [(9, ⟨Weight.Normal⟩)], strength := [] },
    player_id := 0, battle_result := none, is_inboard := inboard10 }

/-- A state where agent 1 of the current player stands adjacent to enemy
agent 2. -/
def sAttack : State :=
  { parts := { pos := [(1, hx 0 0), (2, hx 1 0)],
               belongs_to := [(1, 0), (2, 1)],
               agent := [(1, agentStd), (2, agentStd)],
               abilities := [], blocker := [], strength := [] },
    player_id := 0, battle_result := none, is_inboard := inboard10 }

/-- The attack validation sequence exactly as the spec words it: equal ids,
unresolvable target position, attacker not an agent, enemy attacker,
non-agent target, off-board target position, exhausted attack resource, and
excessive distance, each mapped to its error, with no minimum-distance
constraint.  The attacker position and owner are taken as inputs because the
source obtains them through total lookups. -/
def attack_spec (s : State) (c : Attack) (attacker_pos : PosHex) (attacker_player_id : Nat) :
    Except Fail Unit :=
  if c.attacker_id = c.target_id then Except.error (Fail.err Error.BadTargetId)
  else
  match get_opt s.parts.pos c.target_id with
  | none => Except.error (Fail.err Error.BadTargetId)
  | some target_pos =>
  match get_opt s.parts.agent c.attacker_id with
  | none => Except.error (Fail.err Error.BadActorId)
  | some attacker_agent =>
  if attacker_player_id ≠ s.player_id then Except.error (Fail.err Error.CanNotCommandEnemyAgents)
  else
  if (get_opt s.parts.agent c.target_id).isNone then Except.error (Fail.err Error.BadTargetId)
  else
  if ¬ s.is_inboard target_pos then Except.error (Fail.err Error.BadPos)
  else
  if attacker_agent.attacks = 0 ∧ attacker_agent.jokers = 0 then
    Except.error (Fail.err Error.NotEnoughAttacks)
  else
  if distance_hex attacker_pos target_pos > attacker_agent.attack_distance then
    Except.error (Fail.err Error.DistanceIsTooBig)
  else Except.ok ()

/-! ### Helper lemmas -/

@[simp]
theorem total_get_some {α : Type} (a : α) : total_get (some a) = Except.ok a := rfl

@[simp]
theorem total_get_none {α : Type} : total_get (none : Option α) = Except.error Fail.crash := rfl

theorem try_get_actor_some {s : State} {id : Nat} {a : Agent}
    (h : get_opt s.parts.agent id = some a) : try_get_actor s id = Except.ok a := by
  rw [try_get_actor, h]

theorem try_get_actor_none {s : State} {id : Nat}
    (h : get_opt s.parts.agent id = none) :
    try_get_actor s id = Except.error (Fail.err Error.BadActorId) := by
  rw [try_get_actor, h]

theorem check_not_blocked_ok {s : State} {p : PosHex}
    (h1 : s.is_inboard p = true) (h2 : is_tile_blocked s p = false) :
    check_not_blocked_and_is_inboard s p = Except.ok () := by
  simp [check_not_blocked_and_is_inboard, check_is_inboard, h1, h2]

theorem check_not_blocked_badpos {s : State} {p : PosHex}
    (h : s.is_inboard p = false) :
    check_not_blocked_and_is_inboard s p = Except.error (Fail.err Error.BadPos) := by
  simp [check_not_blocked_and_is_inboard, check_is_inboard, h]

theorem check_not_blocked_blocked {s : State} {p : PosHex}
    (h1 : s.is_inboard p = true) (h2 : is_tile_blocked s p = true) :
    check_not_blocked_and_is_inboard s p = Except.error (Fail.err Error.TileIsBlocked) := by
  simp [check_not_blocked_and_is_inboard, check_is_inboard, h1, h2]

theorem check_steps_ok {s : State} {l : List PosHex}
    (h : ∀ p ∈ l, s.is_inboard p = true ∧ is_tile_blocked s p = false) :
    check_steps s l = Except.ok () := by
  induction l with
  | nil => rfl
  | cons p rest ih =>
    have hp := h p (List.mem_cons_self p rest)
    rw [check_steps, check_not_blocked_ok hp.1 hp.2]
    exact ih fun q hq => h q (List.mem_cons_of_mem p hq)

theorem check_steps_append (s : State) (l1 l2 : List PosHex) :
    check_steps s (l1 ++ l2) =
      (match check_steps s l1 with
       | Except.error e => Except.error e
       | Except.ok _ => check_steps s l2) := by
  induction l1 with
  | nil => rfl
  | cons p rest ih =>
    rw [List.cons_append, check_steps, check_steps]
    cases check_not_blocked_and_is_inboard s p with
    | error e => rfl
    | ok _ => exact ih

theorem check_steps_cons (s : State) (p : PosHex) (rest : List PosHex) :
    check_steps s (p :: rest) =
      (match check_not_blocked_and_is_inboard s p with
       | Except.error e => Except.error e
       | Except.ok _ => check_steps s rest) := rfl

theorem ability_ready_scan_not_ready_iff (ab : Ability) (l : List RechargeableAbility)
    (found : Bool) :
    ability_ready_scan ab l found = Except.error (Fail.err Error.AbilityIsNotReady)
      ↔ ∃ e ∈ l, e.ability = ab ∧ e.status ≠ Status.Ready := by
  induction l generalizing found with
  | nil => cases found <;> simp [ability_ready_scan]
  | cons a rest ih =>
    by_cases hab : a.ability = ab
    · by_cases hst : a.status = Status.Ready
      · simp [ability_ready_scan, hab, hst, ih]
      · simp [ability_ready_scan, hab, hst]
    · simp [ability_ready_scan, hab, ih]

theorem ability_ready_scan_no_such_iff (ab : Ability) (l : List RechargeableAbility)
    (found : Bool) :
    ability_ready_scan ab l found = Except.error (Fail.err Error.NoSuchAbility)
      ↔ (found = false ∧ ∀ e ∈ l, e.ability ≠ ab) := by
  induction l generalizing found with
  | nil => cases found <;> simp [ability_ready_scan]
  | cons a rest ih =>
    by_cases hab : a.ability = ab
    · by_cases hst : a.status = Status.Ready
      · simp [ability_ready_scan, hab, hst, ih]
      · simp [ability_ready_scan, hab, hst]
    · simp [ability_ready_scan, hab, ih]

theorem ability_ready_scan_ok_iff (ab : Ability) (l : List RechargeableAbility)
    (found : Bool) :
    ability_ready_scan ab l found = Except.ok ()
      ↔ ((found = true ∨ ∃ e ∈ l, e.ability = ab)
          ∧ ∀ e ∈ l, e.ability = ab → e.status = Status.Ready) := by
  induction l generalizing found with
  | nil => cases found <;> simp [ability_ready_scan]
  | cons a rest ih =>
    by_cases hab : a.ability = ab
    · by_cases hst : a.status = Status.Ready
      · simp [ability_ready_scan, hab, hst, ih]
      · simp [ability_ready_scan, hab, hst]
    · simp [ability_ready_scan, hab, ih]

/-! ### C1 -/

/-- C1 counterexample: in `sVanish` the battle is running, actor 7 has no
agent component, belongs to the current player, holds Vanish with status
Ready, and targets its own position — yet `check` rejects the command with
`BadActorId` (the shared preamble's attack-resource check requires an agent
component), so the claimed `Ok(())` does not hold. -/
theorem c1_counterexample :
    sVanish.battle_result = none
  ∧ get_opt sVanish.parts.agent 7 = none
  ∧ get_opt sVanish.parts.belongs_to 7 = some sVanish.player_id
  ∧ get_opt sVanish.parts.abilities 7 = some [⟨Ability.Vanish, Status.Ready⟩]
  ∧ get_opt sVanish.parts.pos 7 = some cVanish.pos
  ∧ check sVanish (Command.UseAbility cVanish) = Except.error (Fail.err Error.BadActorId) :=
  ⟨rfl, rfl, rfl, rfl, rfl, rfl⟩

/-- C1 amended: a Vanish use by a non-agent actor of the current player with
Vanish Ready in its ability list and targeting its own position is rejected
with `BadActorId`: the shared preamble's attack-resource check runs before
the Vanish-specific checks and requires an agent component, so Vanish is
never accepted for the non-agent actors it is meant for. -/
theorem c1_vanish_rejected (s : State) (c : UseAbility) (l : List RechargeableAbility)
    (p : PosHex)
    (hb : s.battle_result = none)
    (_hab : c.ability = Ability.Vanish)
    (hagent : get_opt s.parts.agent c.id = none)
    (hbt : get_opt s.parts.belongs_to c.id = some s.player_id)
    (_habil : get_opt s.parts.abilities c.id = some l)
    (_hready : (⟨Ability.Vanish, Status.Ready⟩ : RechargeableAbility) ∈ l)
    (_hpos : get_opt s.parts.pos c.id = some p)
    (_htarget : c.pos = p) :
    check s (Command.UseAbility c) = Except.error (Fail.err Error.BadActorId) := by
  simp [check, hb, check_command_use_ability,
        check_agent_belongs_to_correct_player, hbt,
        check_agent_can_attack, try_get_actor_none hagent]

/-- C1 witness for the amended theorem, at the concrete state `sVanish`. -/
theorem c1_witness :
    check sVanish (Command.UseAbility cVanish) = Except.error (Fail.err Error.BadActorId) :=
  c1_vanish_rejected sVanish cVanish [⟨Ability.Vanish, Status.Ready⟩] (hx 2 2)
    rfl rfl rfl rfl rfl (by decide) rfl rfl

/-! ### C2 -/

/-- C2 counterexample: in the running state `sEmpty`, actor 0 has no
`belongs_to` entry; a `UseAbility` command for it makes `check` reach the
total ownership lookup and panic (`crash`) instead of returning `BadActorId`,
`BadTargetId` or `BadActorType`. -/
theorem c2_counterexample :
    get_opt sEmpty.parts.belongs_to 0 = none
  ∧ check sEmpty (Command.UseAbility { id := 0, pos := hx 0 0, ability := Ability.Vanish })
      = Except.error Fail.crash :=
  ⟨rfl, rfl⟩

/-- C2 amended: a missing agent component is converted into `BadActorId`
(shown for MoveTo, whose fallible actor lookup runs first), but a missing
ownership entry is not converted: a `UseAbility` whose actor id has no
`belongs_to` entry panics in the total lookup rather than returning an
error. -/
theorem c2_malformed_ids (s : State) (hb : s.battle_result = none) :
    (∀ c : MoveTo, get_opt s.parts.agent c.id = none →
      check s (Command.MoveTo c) = Except.error (Fail.err Error.BadActorId))
  ∧ (∀ c : UseAbility, get_opt s.parts.belongs_to c.id = none →
      check s (Command.UseAbility c) = Except.error Fail.crash) := by
  constructor
  · intro c h
    simp [check, hb, check_command_move_to, try_get_actor_none h]
  · intro c h
    simp [check, hb, check_command_use_ability, check_agent_belongs_to_correct_player, h]

/-- C2 witness for the amended theorem, at the concrete state `sEmpty`. -/
theorem c2_witness :
    check sEmpty (Command.MoveTo { id := 0, path := { steps := [], cost := 0 } })
      = Except.error (Fail.err Error.BadActorId)
  ∧ check sEmpty (Command.UseAbility { id := 0, pos := hx 0 0, ability := Ability.Vanish })
      = Except.error Fail.crash :=
  ⟨(c2_malformed_ids sEmpty rfl).1 _ rfl, (c2_malformed_ids sEmpty rfl).2 _ rfl⟩

/-! ### C3 -/

/-- C3: an agent of the current player with zero moves, zero move points and
a nonzero joker count passes the move gate (no `NotEnoughMoves`), yet any
path of nonzero cost over on-board unblocked tiles is rejected with
`NotEnoughMovePoints`: the numeric cost comparison consults move points only,
never jokers. -/
theorem c3_joker_move_points (s : State) (c : MoveTo) (a : Agent)
    (hb : s.battle_result = none)
    (ha : get_opt s.parts.agent c.id = some a)
    (_hmoves : a.moves = 0)
    (hmp : a.move_points = 0)
    (hj : a.jokers ≠ 0)
    (hbt : get_opt s.parts.belongs_to c.id = some s.player_id)
    (hsteps : ∀ p ∈ c.path.steps, s.is_inboard p = true ∧ is_tile_blocked s p = false)
    (hcost : c.path.cost ≠ 0) :
    check_agent_can_move s c.id = Except.ok ()
  ∧ check s (Command.MoveTo c)
      = Except.error (Fail.err Error.NotEnoughMovePoints) := by
  have hgate : check_agent_can_move s c.id = Except.ok () := by
    simp [check_agent_can_move, try_get_actor_some ha, hj]
  refine ⟨hgate, ?_⟩
  simp [check, hb, check_command_move_to, try_get_actor_some ha, hbt, hgate,
        check_steps_ok hsteps, hmp, Nat.pos_of_ne_zero hcost]

/-- C3 witness: at `sJoker` a two-step path of cost 2 is rejected for lack of
move points although the agent has a joker. -/
theorem c3_witness :
    check sJoker (Command.MoveTo { id := 1, path := { steps := [hx 1 0, hx 2 0], cost := 2 } })
      = Except.error (Fail.err Error.NotEnoughMovePoints) :=
  (c3_joker_move_points sJoker
    { id := 1, path := { steps := [hx 1 0, hx 2 0], cost := 2 } }
    { moves := 0, attacks := 1, jokers := 1, attack_distance := 1, move_points := 0 }
    rfl rfl rfl rfl (by decide) rfl (by decide) (by decide)).2

/-! ### C4 -/

/-- C4: given the actor has an ability list, the readiness check returns
`NoSuchAbility` iff no entry has the requested kind, `AbilityIsNotReady` iff
some entry of the requested kind has a status other than `Ready` (every
matching entry is examined, so a not-Ready duplicate overrides an earlier
Ready entry), and passes iff at least one entry matches the kind and every
matching entry is `Ready`. -/
theorem c4_ability_ready_characterization (s : State) (id : Nat) (ab : Ability)
    (l : List RechargeableAbility) (h : get_opt s.parts.abilities id = some l) :
    (check_agent_ability_ready s id ab = Except.error (Fail.err Error.NoSuchAbility)
      ↔ ∀ e ∈ l, e.ability ≠ ab)
  ∧ (check_agent_ability_ready s id ab = Except.error (Fail.err Error.AbilityIsNotReady)
      ↔ ∃ e ∈ l, e.ability = ab ∧ e.status ≠ Status.Ready)
  ∧ (check_agent_ability_ready s id ab = Except.ok ()
      ↔ ((∃ e ∈ l, e.ability = ab)
          ∧ ∀ e ∈ l, e.ability = ab → e.status = Status.Ready)) := by
  have hr : check_agent_ability_ready s id ab = ability_ready_scan ab l false := by
    simp [check_agent_ability_ready, h]
  rw [hr]
  refine ⟨?_, ?_, ?_⟩
  · simpa using ability_ready_scan_no_such_iff ab l false
  · exact ability_ready_scan_not_ready_iff ab l false
  · simpa using ability_ready_scan_ok_iff ab l false

/-- C4 witness: in `sAbil` the duplicate Jump (Ready then Cooldown) yields
`AbilityIsNotReady`, an absent Dash yields `NoSuchAbility`, and a Ready Heal
passes. -/
theorem c4_witness :
    check_agent_ability_ready sAbil 1 Ability.Jump
      = Except.error (Fail.err Error.AbilityIsNotReady)
  ∧ check_agent_ability_ready sAbil 1 Ability.Dash
      = Except.error (Fail.err Error.NoSuchAbility)
  ∧ check_agent_ability_ready sAbil 1 Ability.Heal = Except.ok () := by
  refine ⟨?_, ?_, ?_⟩
  · exact (c4_ability_ready_characterization sAbil 1 Ability.Jump _ rfl).2.1.mpr
      ⟨⟨Ability.Jump, Status.Cooldown 1⟩, by decide, rfl, by decide⟩
  · exact (c4_ability_ready_characterization sAbil 1 Ability.Dash _ rfl).1.mpr (by decide)
  · exact (c4_ability_ready_characterization sAbil 1 Ability.Heal _ rfl).2.2.mpr (by decide)

/-! ### C6 -/

/-- C6: for MoveTo, Attack and UseAbility commands whose actor's owner
differs from the current player, with the fields consulted by the checks
preceding the ownership check resolving, `check` returns
`CanNotCommandEnemyAgents`. -/
theorem c6_ownership (s : State) (hb : s.battle_result = none) :
    (∀ (c : MoveTo) (a : Agent) (op : Nat),
      get_opt s.parts.agent c.id = some a →
      get_opt s.parts.belongs_to c.id = some op → op ≠ s.player_id →
      check s (Command.MoveTo c) = Except.error (Fail.err Error.CanNotCommandEnemyAgents))
  ∧ (∀ (c : Attack) (a : Agent) (apos tpos : PosHex) (op : Nat),
      c.attacker_id ≠ c.target_id →
      get_opt s.parts.pos c.target_id = some tpos →
      get_opt s.parts.agent c.attacker_id = some a →
      get_opt s.parts.pos c.attacker_id = some apos →
      get_opt s.parts.belongs_to c.attacker_id = some op → op ≠ s.player_id →
      check s (Command.Attack c) = Except.error (Fail.err Error.CanNotCommandEnemyAgents))
  ∧ (∀ (c : UseAbility) (op : Nat),
      get_opt s.parts.belongs_to c.id = some op → op ≠ s.player_id →
      check s (Command.UseAbility c)
        = Except.error (Fail.err Error.CanNotCommandEnemyAgents)) := by
  refine ⟨?_, ?_, ?_⟩
  · intro c a op ha hbt hop
    simp [check, hb, check_command_move_to, try_get_actor_some ha, hbt, hop]
  · intro c a apos tpos op hne htpos ha hapos hbt hop
    simp [check, hb, check_command_attack, hne, htpos, try_get_actor_some ha, hapos, hbt, hop]
  · intro c op hbt hop
    simp [check, hb, check_command_use_ability, check_agent_belongs_to_correct_player, hbt, hop]

/-- C6 witness: in `sEnemy` (actor 1 owned by player 1, current player 0) a
MoveTo, an Attack and a UseAbility by actor 1 are all rejected with
`CanNotCommandEnemyAgents`. -/
theorem c6_witness :
    check sEnemy (Command.MoveTo { id := 1, path := { steps := [], cost := 0 } })
      = Except.error (Fail.err Error.CanNotCommandEnemyAgents)
  ∧ check sEnemy (Command.Attack { attacker_id := 1, target_id := 2 })
      = Except.error (Fail.err Error.CanNotCommandEnemyAgents)
  ∧ check sEnemy (Command.UseAbility { id := 1, pos := hx 0 0, ability := Ability.Rage })
      = Except.error (Fail.err Error.CanNotCommandEnemyAgents) :=
  ⟨(c6_ownership sEnemy rfl).1 _ agentStd 1 rfl rfl (by decide),
   (c6_ownership sEnemy rfl).2.1 _ agentStd (hx 0 0) (hx 1 0) 1 (by decide) rfl rfl rfl rfl
     (by decide),
   (c6_ownership sEnemy rfl).2.2 _ 1 rfl (by decide)⟩

/-! ### C7 -/

/-- C7: for a Heal/GreatHeal use (both dispatch to `check_ability_heal`)
whose target tile is within hex distance 1 and occupied by an agent: full
strength gives `BadTargetType`, a missing strength component gives
`BadActorId`, and strictly-below-base strength passes the heal-specific
checks. -/
theorem c7_heal_strength (s : State) (id : Nat) (pos apos : PosHex) (tid : Nat)
    (hpos : get_opt s.parts.pos id = some apos)
    (hdist : distance_hex apos pos ≤ 1)
    (htid : agent_id_at_opt s pos = some tid) :
    (∀ st, get_opt s.parts.strength tid = some st →
      (st.strength = st.base_strength →
        check_ability_heal s id pos = Except.error (Fail.err Error.BadTargetType))
      ∧ (st.strength < st.base_strength →
        check_ability_heal s id pos = Except.ok ()))
  ∧ (get_opt s.parts.strength tid = none →
      check_ability_heal s id pos = Except.error (Fail.err Error.BadActorId)) := by
  have hmax : check_max_distance apos pos 1 = Except.ok () := by
    rw [check_max_distance, if_neg (by omega)]
  constructor
  · intro st hst
    constructor
    · intro heq
      simp [check_ability_heal, hpos, hmax, htid, hst, heq]
    · intro hlt
      have hne : st.strength ≠ st.base_strength := Nat.ne_of_lt hlt
      simp [check_ability_heal, hpos, hmax, htid, hst, hne]
  · intro hnone
    simp [check_ability_heal, hpos, hmax, htid, hnone]

/-- C7 witness: in `sHeal`, healing the full-strength agent gives
`BadTargetType`, the wounded agent passes, and the strength-less agent gives
`BadActorId`. -/
theorem c7_witness :
    check_ability_heal sHeal 1 (hx 1 0) = Except.error (Fail.err Error.BadTargetType)
  ∧ check_ability_heal sHeal 1 (hx 0 1) = Except.ok ()
  ∧ check_ability_heal sHeal 1 (hx (-1) 0) = Except.error (Fail.err Error.BadActorId) := by
  refine ⟨?_, ?_, ?_⟩
  · exact ((c7_heal_strength sHeal 1 (hx 1 0) (hx 0 0) 2 rfl (by decide) rfl).1
      ⟨5, 5⟩ rfl).1 rfl
  · exact ((c7_heal_strength sHeal 1 (hx 0 1) (hx 0 0) 3 rfl (by decide) rfl).1
      ⟨3, 5⟩ rfl).2 (by decide)
  · exact (c7_heal_strength sHeal 1 (hx (-1) 0) (hx 0 0) 4 rfl (by decide) (by decide)).2 rfl

/-! ### C9 -/

/-- C9: for every Attack command in a running battle whose attacker has a
position and an ownership entry (the source reads both through total
lookups), `check` applies exactly the spec's predicates in the spec's order:
it equals `attack_spec`, the sequence equal-ids/no-target-position/non-agent
attacker/enemy attacker/non-agent target/off-board target/exhausted attack
resource/excessive distance, with no minimum-distance constraint. -/
theorem c9_attack_order (s : State) (c : Attack) (apos : PosHex) (op : Nat)
    (hb : s.battle_result = none)
    (hapos : get_opt s.parts.pos c.attacker_id = some apos)
    (hbt : get_opt s.parts.belongs_to c.attacker_id = some op) :
    check s (Command.Attack c) = attack_spec s c apos op := by
  have h0 : check s (Command.Attack c) = check_command_attack s c := by
    simp [check, hb]
  rw [h0, check_command_attack, attack_spec, hapos, hbt]
  by_cases hid : c.attacker_id = c.target_id
  · simp [hid]
  · simp only [if_neg hid]
    cases htp : get_opt s.parts.pos c.target_id with
    | none => rfl
    | some tpos =>
      cases hag : get_opt s.parts.agent c.attacker_id with
      | none => simp [try_get_actor, hag]
      | some a =>
        simp only [try_get_actor, hag, total_get_some]
        by_cases hop : op ≠ s.player_id
        · simp [hop]
        · simp only [if_neg hop]
          by_cases htag : (get_opt s.parts.agent c.target_id).isNone = true
          · simp [htag]
          · simp only [if_neg htag]
            rw [check_is_inboard]
            by_cases hin : ¬ s.is_inboard tpos = true
            · simp [hin]
            · simp only [if_neg hin]
              rw [check_agent_can_attack, try_get_actor, hag]
              by_cases hatk : a.attacks = 0 ∧ a.jokers = 0
              · simp [hatk]
              · simp only [if_neg hatk]
                rfl

/-- C9 witness: in `sAttack` an adjacent attack by agent 1 on agent 2
satisfies the whole sequence and is accepted. -/
theorem c9_witness :
    check sAttack (Command.Attack { attacker_id := 1, target_id := 2 }) = Except.ok () := by
  have h := c9_attack_order sAttack { attacker_id := 1, target_id := 2 } (hx 0 0) 0
    rfl rfl rfl
  rw [h]
  rfl

/-! ### C10 -/

/-- C10: for a MoveTo by an agent of the current player with moves or jokers
remaining, every step destination is checked independently: the first
off-board step yields `BadPos` and the first blocked step yields
`TileIsBlocked`, even for intermediate steps; and when every step destination
is on-board and unoccupied and the path cost is at most the agent's move
points, `check` accepts. -/
theorem c10_move_path (s : State) (c : MoveTo) (a : Agent)
    (hb : s.battle_result = none)
    (ha : get_opt s.parts.agent c.id = some a)
    (hbt : get_opt s.parts.belongs_to c.id = some s.player_id)
    (hgate : a.moves ≠ 0 ∨ a.jokers ≠ 0) :
    (∀ l1 p l2, c.path.steps = l1 ++ p :: l2 →
      (∀ q ∈ l1, s.is_inboard q = true ∧ is_tile_blocked s q = false) →
      s.is_inboard p = false →
      check s (Command.MoveTo c) = Except.error (Fail.err Error.BadPos))
  ∧ (∀ l1 p l2, c.path.steps = l1 ++ p :: l2 →
      (∀ q ∈ l1, s.is_inboard q = true ∧ is_tile_blocked s q = false) →
      s.is_inboard p = true → is_tile_blocked s p = true →
      check s (Command.MoveTo c) = Except.error (Fail.err Error.TileIsBlocked))
  ∧ ((∀ q ∈ c.path.steps, s.is_inboard q = true ∧ is_tile_blocked s q = false) →
      c.path.cost ≤ a.move_points →
      check s (Command.MoveTo c) = Except.ok ()) := by
  have hmove : check_agent_can_move s c.id = Except.ok () := by
    rcases hgate with h | h <;> simp [check_agent_can_move, try_get_actor_some ha, h]
  refine ⟨?_, ?_, ?_⟩
  · intro l1 p l2 hsplit hgood hp
    have hsteps : check_steps s c.path.steps = Except.error (Fail.err Error.BadPos) := by
      rw [hsplit, check_steps_append, check_steps_ok hgood]
      show check_steps s (p :: l2) = _
      rw [check_steps_cons, check_not_blocked_badpos hp]
    simp [check, hb, check_command_move_to, try_get_actor_some ha, hbt, hmove, hsteps]
  · intro l1 p l2 hsplit hgood hp hblk
    have hsteps : check_steps s c.path.steps
        = Except.error (Fail.err Error.TileIsBlocked) := by
      rw [hsplit, check_steps_append, check_steps_ok hgood]
      show check_steps s (p :: l2) = _
      rw [check_steps_cons, check_not_blocked_blocked hp hblk]
    simp [check, hb, check_command_move_to, try_get_actor_some ha, hbt, hmove, hsteps]
  · intro hgood hcost
    simp [check, hb, check_command_move_to, try_get_actor_some ha, hbt, hmove,
          check_steps_ok hgood, Nat.not_lt.mpr hcost]

/-- C10 witness: in `sBlock` a clear two-step path of cost 2 is accepted, a
path whose second step leaves the board yields `BadPos`, and a path through
the blocked tile (5,5) yields `TileIsBlocked`. -/
theorem c10_witness :
    check sBlock (Command.MoveTo { id := 1, path := { steps := [hx 1 0, hx 2 0], cost := 2 } })
      = Except.ok ()
  ∧ check sBlock
      (Command.MoveTo { id := 1, path := { steps := [hx 1 0, hx 11 0], cost := 2 } })
      = Except.error (Fail.err Error.BadPos)
  ∧ check sBlock
      (Command.MoveTo { id := 1, path := { steps := [hx 1 0, hx 5 5, hx 2 0], cost := 3 } })
      = Except.error (Fail.err Error.TileIsBlocked) :=
  ⟨(c10_move_path sBlock { id := 1, path := { steps := [hx 1 0, hx 2 0], cost := 2 } }
      agentStd rfl rfl rfl (Or.inl (by decide))).2.2 (by decide) (by decide),
   (c10_move_path sBlock { id := 1, path := { steps := [hx 1 0, hx 11 0], cost := 2 } }
      agentStd rfl rfl rfl (Or.inl (by decide))).1
      [hx 1 0] (hx 11 0) [] rfl (by decide) (by decide),
   (c10_move_path sBlock { id := 1, path := { steps := [hx 1 0, hx 5 5, hx 2 0], cost := 3 } }
      agentStd rfl rfl rfl (Or.inl (by decide))).2.1
      [hx 1 0] (hx 5 5) [hx 2 0] rfl (by decide) (by decide) (by decide)⟩

/-! ### C5 -/

/-- C5: when a terminal battle result is recorded, `check` returns
`BattleEnded` for every command of every variant; when no result is
recorded, every `EndTurn` command returns `Ok(())` with no further
preconditions. -/
theorem c5_battle_ended_and_end_turn (s : State) (c : Command) :
    (s.battle_result.isSome = true →
      check s c = Except.error (Fail.err Error.BattleEnded))
  ∧ (s.battle_result = none → check s Command.EndTurn = Except.ok ()) := by
  constructor
  · intro h
    simp [check, h]
  · intro h
    simp [check, h, check_command_end_turn]

/-- C5 witness: the concluded state rejects an `EndTurn` with `BattleEnded`,
and the running empty state accepts `EndTurn`. -/
theorem c5_witness :
    check sEnded Command.EndTurn = Except.error (Fail.err Error.BattleEnded)
  ∧ check sEmpty Command.EndTurn = Except.ok () :=
  ⟨(c5_battle_ended_and_end_turn sEnded Command.EndTurn).1 rfl,
   (c5_battle_ended_and_end_turn sEmpty Command.EndTurn).2 rfl⟩

/-! ### C8 -/

/-- C8: for min-distance bound `lo` and max-distance bound `hi`, the distance
checks yield `DistanceIsTooSmall` exactly when `d < lo`, `DistanceIsTooBig`
exactly when `d > hi`, and both pass exactly when `lo ≤ d ≤ hi`; both
comparisons are strict, so a distance equal to a bound passes. -/
theorem c8_distance_bounds (a b : PosHex) (lo hi : Nat) :
    (check_min_distance a b lo = Except.error (Fail.err Error.DistanceIsTooSmall)
      ↔ distance_hex a b < lo)
  ∧ (check_min_distance a b lo = Except.ok () ↔ lo ≤ distance_hex a b)
  ∧ (check_max_distance a b hi = Except.error (Fail.err Error.DistanceIsTooBig)
      ↔ distance_hex a b > hi)
  ∧ (check_max_distance a b hi = Except.ok () ↔ distance_hex a b ≤ hi)
  ∧ ((check_min_distance a b lo = Except.ok () ∧ check_max_distance a b hi = Except.ok ())
      ↔ lo ≤ distance_hex a b ∧ distance_hex a b ≤ hi) := by
  unfold check_min_distance check_max_distance
  split_ifs with h1 h2 <;> simp_all

end Zemeroth
